import Mathlib

/-!
Verification of the student-admission form handler (`src/app.js`).

The program is a single Express endpoint `POST /submit`: a multer upload
filter, a sequence of four validation rules, a MongoDB write and a
nodemailer notification.  We embed it shallowly:

* form fields arrive as `Option String` (a missing field is `none`;
  JavaScript's falsiness test `!x` on a field is `none` or `""`);
* `new Date(dob)` and the wall clock are environment parameters
  (`Env.parseDate`, `Env.now`, epoch milliseconds); an invalid date
  (JavaScript `NaN` timestamp) is modelled as `none`;
* the age arithmetic is done in `ℚ`.  The JavaScript computation is IEEE
  double arithmetic, but the numerator is an exact integer and the
  denominator 31557600000 is exact, so the correctly rounded double
  quotient compares against 18 exactly as the rational quotient does;
* `Student.save` and `transporter.sendMail` either succeed or throw;
  the two oracles `Env.saveOk`, `Env.mailOk` decide which;
* the two regular-expression tests are embedded by their match
  semantics: `emailTest` is the search semantics of
  `/\S+@\S+\.\S+/.test`, `phoneTest` the anchored match semantics of
  `/^\d{3}-\d{3}-\d{4}$/.test`.
-/

/-- The character class `\s` of JavaScript regular expressions:
`[\t\n\v\f\r    -     　﻿]`. -/
def jsSpace (c : Char) : Bool :=
  c == '\t' || c == '\n' || c == '\x0b' || c == '\x0c' || c == '\r' || c == ' ' ||
  c == ' ' || c == ' ' || (' ' ≤ c && c ≤ ' ') ||
  c == ' ' || c == ' ' || c == ' ' || c == ' ' ||
  c == '　' || c == '﻿'

/-- `/\S+@\S+\.\S+/.test(email)` (src/app.js line 103).  The unanchored
test succeeds iff some contiguous substring matches
`\S+@\S+\.\S+`, which holds iff there are positions `i < j` with `'@'`
at `i`, `'.'` at `j`, a non-space character just before the `'@'`, a
nonempty run of non-space characters strictly between them, and a
non-space character just after the `'.'`. -/
def emailTest (s : String) : Bool :=
  let l := s.data
  (List.range l.length).any fun i =>
    (List.range l.length).any fun j =>
      decide (1 ≤ i) && decide (i + 1 < j) && decide (j + 1 < l.length) &&
      (l.getD i ' ' == '@') && (l.getD j ' ' == '.') &&
      !jsSpace (l.getD (i - 1) ' ') &&
      ((l.drop (i + 1)).take (j - (i + 1))).all (fun ch => !jsSpace ch) &&
      !jsSpace (l.getD (j + 1) ' ')

/-- The email pattern as the specification words it: at least one
non-whitespace run, an `@`, another non-whitespace run, a literal `.`,
and a final non-whitespace run, occurring inside the string (the
JavaScript test is an unanchored search). -/
def EmailPattern (s : String) : Prop :=
  ∃ pre a b c post : List Char,
    s.data = pre ++ a ++ '@' :: (b ++ '.' :: (c ++ post)) ∧
    a ≠ [] ∧ (∀ ch ∈ a, jsSpace ch = false) ∧
    b ≠ [] ∧ (∀ ch ∈ b, jsSpace ch = false) ∧
    c ≠ [] ∧ (∀ ch ∈ c, jsSpace ch = false)

/-- `/^\d{3}-\d{3}-\d{4}$/.test(phone)` (src/app.js line 108): the whole
string is three digits, a hyphen, three digits, a hyphen, four digits. -/
def phoneTest (s : String) : Bool :=
  match s.data with
  | [a, b, c, h1, d, e, f, h2, g, h, i, j] =>
    a.isDigit && b.isDigit && c.isDigit && h1 == '-' &&
    d.isDigit && e.isDigit && f.isDigit && h2 == '-' &&
    g.isDigit && h.isDigit && i.isDigit && j.isDigit
  | _ => false

/-- The phone pattern as the specification words it: exactly three
digits, hyphen, three digits, hyphen, four digits, and nothing else. -/
def PhonePattern (s : String) : Prop :=
  ∃ x y z : List Char,
    s.data = x ++ '-' :: (y ++ '-' :: z) ∧
    x.length = 3 ∧ y.length = 3 ∧ z.length = 4 ∧
    (∀ ch ∈ x, ch.isDigit = true) ∧ (∀ ch ∈ y, ch.isDigit = true) ∧
    (∀ ch ∈ z, ch.isDigit = true)

/-- JavaScript falsiness of a form-field value: the field is absent
(`undefined`) or the empty string. -/
def falsy : Option String → Bool
  | none => true
  | some s => s == ""

/-- The value of a form field where the handler uses it as a string
(after the presence check every required field is a `some`). -/
def fieldVal (o : Option String) : String := o.getD ""

/-- The `POST /submit` request: the `req.body` fields (each absent or a
string) and `req.file` (the stored path of the uploaded photo, if any). -/
structure Request where
  fullName : Option String
  dob : Option String
  gender : Option String
  email : Option String
  phone : Option String
  address : Option String
  previousSchool : Option String
  result : Option String
  classApplying : Option String
  agreed : Option String
  file : Option String
deriving DecidableEq

/-- src/app.js line 91: `!fullName || !dob || !gender || !email ||
!phone || !address || !result || !classApplying || agreed !== 'on'`. -/
def presenceFails (req : Request) : Bool :=
  falsy req.fullName || falsy req.dob || falsy req.gender ||
  falsy req.email || falsy req.phone || falsy req.address ||
  falsy req.result || falsy req.classApplying ||
  !(req.agreed == some "on")

/-- src/app.js line 97: `(new Date() - birthDate) / (1000*60*60*24*365.25)`,
for a date of birth that parsed (`now` and `birth` in epoch ms). -/
def ageQ (now birth : Int) : ℚ :=
  ((now : ℚ) - (birth : ℚ)) / (1000 * 60 * 60 * 24 * (365.25 : ℚ))

/-- src/app.js line 98: `age < 18`.  When `dob` did not parse,
`birthDate` is an invalid date, the age is `NaN`, and `NaN < 18` is
`false`; we model the `NaN` age as `none`. -/
def ageFails (now : Int) (birth : Option Int) : Bool :=
  match birth with
  | none => false
  | some b => decide (ageQ now b < 18)

/-- The persisted `Student` document (src/app.js lines 112-124):
`dob` is the parsed date, `photo` the stored file path or null,
`agreed` the literal boolean `true`. -/
structure StudentRecord where
  fullName : String
  dob : Option Int
  gender : String
  email : String
  phone : String
  address : String
  previousSchool : Option String
  result : String
  classApplying : String
  photo : Option String
  agreed : Bool
deriving DecidableEq

/-- The notification handed to `transporter.sendMail`
(src/app.js lines 129-147).  `from` and `to` are Lean keywords, hence
`fromAddr` and `toAddr`. -/
structure Mail where
  fromAddr : String
  toAddr : String
  subject : String
  text : String
  attachments : List String
deriving DecidableEq

/-- An HTTP response of the handler: `200 {message}`, `400 {error}`,
`500 {error}`, or the multer upload rejection surfaced by Express. -/
inductive Response where
  | ok (message : String)
  | badRequest (error : String)
  | serverError (error : String)
  | uploadError (error : String)
deriving DecidableEq

/-- What one request leaves behind: the response, the record the store
now holds (if the save was reached and succeeded), and the mail that
was delivered (if the send was reached and succeeded). -/
structure Outcome where
  response : Response
  persisted : Option StudentRecord
  mailSent : Option Mail
deriving DecidableEq

/-- The handler's environment: the wall clock and date parser behind
`new Date`, whether `save` and `sendMail` succeed, and the mail
configuration (`adminEmail` models `process.env.ADMIN_EMAIL ||
'admin@example.com'` already resolved). -/
structure Env where
  now : Int
  parseDate : String → Option Int
  saveOk : Bool
  mailOk : Bool
  gmailUser : String
  adminEmail : String

/-- The plain-text body of the notification, exactly as the template
literal at src/app.js lines 133-145 renders it. -/
def mailText (fullName dob gender email phone address prevSchool
    result classApplying photoInd : String) : String :=
  "\n        New submission:\n        Full Name: " ++ fullName ++
  "\n        DOB: " ++ dob ++
  "\n        Gender: " ++ gender ++
  "\n        Email: " ++ email ++
  "\n        Phone: " ++ phone ++
  "\n        Address: " ++ address ++
  "\n        Previous School: " ++ prevSchool ++
  "\n        Result: " ++ result ++
  "\n        Class Applying: " ++ classApplying ++
  "\n        Photo: " ++ photoInd ++
  "\n      "

/-- `new Student({...})` (src/app.js lines 112-124). -/
def buildRecord (req : Request) (birth : Option Int) : StudentRecord where
  fullName := fieldVal req.fullName
  dob := birth
  gender := fieldVal req.gender
  email := fieldVal req.email
  phone := fieldVal req.phone
  address := fieldVal req.address
  previousSchool := req.previousSchool
  result := fieldVal req.result
  classApplying := fieldVal req.classApplying
  photo := req.file
  agreed := true

/-- `mailOptions` (src/app.js lines 129-147): `${previousSchool || 'N/A'}`
substitutes "N/A" for a falsy previous school, the photo line shows
`'Attached'`/`'None'`, and the file is attached when present. -/
def buildMail (env : Env) (req : Request) : Mail where
  fromAddr := env.gmailUser
  toAddr := env.adminEmail
  subject := "New Student Admission Submission"
  text := mailText (fieldVal req.fullName) (fieldVal req.dob)
    (fieldVal req.gender) (fieldVal req.email) (fieldVal req.phone)
    (fieldVal req.address)
    (if falsy req.previousSchool then "N/A" else fieldVal req.previousSchool)
    (fieldVal req.result) (fieldVal req.classApplying)
    (if req.file.isSome then "Attached" else "None")
  attachments := match req.file with | some p => [p] | none => []

/-- The tail of the handler after all validation passed:
`newStudent.save()` then `transporter.sendMail(mailOptions)`
(src/app.js lines 112-151); a throw from either lands in the catch
block (lines 152-155), which answers `500 {error: 'Server error'}`. -/
def persistAndMail (env : Env) (req : Request) (birth : Option Int) : Outcome :=
  if env.saveOk then
    if env.mailOk then
      ⟨Response.ok "Submission successful", some (buildRecord req birth),
        some (buildMail env req)⟩
    else
      ⟨Response.serverError "Server error", some (buildRecord req birth), none⟩
  else
    ⟨Response.serverError "Server error", none, none⟩

/-- The handler from the email check on (src/app.js lines 102-151). -/
def afterAge (env : Env) (req : Request) (birth : Option Int) : Outcome :=
  if emailTest (fieldVal req.email) then
    if phoneTest (fieldVal req.phone) then
      persistAndMail env req birth
    else
      ⟨Response.badRequest "Invalid phone format", none, none⟩
  else
    ⟨Response.badRequest "Invalid email format", none, none⟩

/-- The `POST /submit` handler body (src/app.js lines 86-156). -/
def handleSubmit (env : Env) (req : Request) : Outcome :=
  if presenceFails req then
    ⟨Response.badRequest "Missing required fields", none, none⟩
  else
    let birth := env.parseDate (fieldVal req.dob)
    if ageFails env.now birth then
      ⟨Response.badRequest "Must be at least 18 years old", none, none⟩
    else
      afterAge env req birth

/-- The validation rules in the order the specification lists them,
returning the first failure's reason: the reference against which the
handler's first-failure behavior is checked. -/
def firstFailure (env : Env) (req : Request) : Option String :=
  if presenceFails req then some "Missing required fields"
  else if ageFails env.now (env.parseDate (fieldVal req.dob)) then
    some "Must be at least 18 years old"
  else if !emailTest (fieldVal req.email) then some "Invalid email format"
  else if !phoneTest (fieldVal req.phone) then some "Invalid phone format"
  else none

/-- The multer `fileFilter` verdict (src/app.js lines 38-44). -/
inductive FilterResult where
  | accept
  | reject (error : String)
deriving DecidableEq

/-- src/app.js lines 38-44: accept iff `file.mimetype.startsWith('image/')`,
otherwise `cb(new Error('Only images are allowed'), false)`.  The
`startsWith` test is embedded at the character-list level. -/
def fileFilter (mimetype : String) : FilterResult :=
  if "image/".data.isPrefixOf mimetype.data then FilterResult.accept
  else FilterResult.reject "Only images are allowed"

/-- The whole `POST /submit` pipeline: multer's `upload.single('photo')`
runs first; a filter rejection aborts the request before the handler
body, so no validation, save or mail happens. -/
def processRequest (env : Env) (mimetype : Option String) (path : String)
    (req : Request) : Outcome :=
  match mimetype with
  | none => handleSubmit env { req with file := none }
  | some m =>
    match fileFilter m with
    | FilterResult.accept => handleSubmit env { req with file := some path }
    | FilterResult.reject e => ⟨Response.uploadError e, none, none⟩

def ageSpecDays (now birth : Int) : ℚ :=
  (((now : ℚ) - (birth : ℚ)) / 86400000) / (365.25 : ℚ)

def envEx : Env where
  now := 0
  parseDate := fun _ => none
  saveOk := true
  mailOk := true
  gmailUser := "admissions@school.example"
  adminEmail := "admin@example.com"

def envExample : Env where
  now := 1791676800000
  parseDate := fun _ => some 946684800000
  saveOk := true
  mailOk := true
  gmailUser := "admissions@school.example"
  adminEmail := "admin@example.com"

def envSaveFail : Env := { envEx with saveOk := false }

def envMailFail : Env := { envEx with mailOk := false }

def envUnderage : Env := { envEx with parseDate := fun _ => some 0 }

def reqMissing : Request :=
  ⟨none, none, none, none, none, none, none, none, none, none, none⟩

def reqValid : Request where
  fullName := some "A B"
  dob := some "2000-01-01"
  gender := some "F"
  email := some "a@b.com"
  phone := some "123-456-7890"
  address := some "X"
  previousSchool := none
  result := some "Pass"
  classApplying := some "10"
  agreed := some "on"
  file := none

def reqBadPhone : Request := { reqValid with phone := some "1234567890" }

def reqBadEmail : Request := { reqValid with email := some "nope" }

def reqBadDob : Request := { reqValid with dob := some "not-a-date" }

def reqBadAgreed : Request := { reqValid with agreed := some "yes" }

lemma getD_of_drop_cons {l t : List Char} {x : Char} {i : Nat}
    (h : l.drop i = x :: t) : l.getD i ' ' = x := by
  have h1 : l[i]? = some x := by
    have h2 := List.getElem?_drop l i 0
    rw [h] at h2
    simpa using h2.symm
  simp [List.getD_eq_getElem?_getD, h1]

lemma drop_of_eq_append {l u v : List Char} (h : l = u ++ v) :
    l.drop u.length = v := by rw [h, List.drop_left]

lemma phoneTest_iff_PhonePattern (s : String) :
    phoneTest s = true ↔ PhonePattern s := by
  constructor
  · intro h
    unfold phoneTest at h
    split at h
    case _ a b c h1 d e f h2 g hh i j heq =>
      simp only [Bool.and_eq_true, beq_iff_eq] at h
      obtain ⟨⟨⟨⟨⟨⟨⟨⟨⟨⟨⟨ha, hb⟩, hc⟩, hh1⟩, hd⟩, he⟩, hf⟩, hh2⟩, hg⟩, hhh⟩, hi⟩, hj⟩ := h
      refine ⟨[a, b, c], [d, e, f], [g, hh, i, j], ?_, rfl, rfl, rfl, ?_, ?_, ?_⟩
      · rw [heq, hh1, hh2]; rfl
      · intro ch hch; simp at hch; rcases hch with h | h | h <;> subst h <;> assumption
      · intro ch hch; simp at hch; rcases hch with h | h | h <;> subst h <;> assumption
      · intro ch hch; simp at hch; rcases hch with h | h | h | h <;> subst h <;> assumption
    case _ => exact absurd h (by simp)
  · rintro ⟨x, y, z, hs, hx3, hy3, hz4, hxd, hyd, hzd⟩
    obtain ⟨a, b, c, rfl⟩ := List.length_eq_three.mp hx3
    obtain ⟨d, e, f, rfl⟩ := List.length_eq_three.mp hy3
    obtain ⟨g, zt, rfl⟩ : ∃ g zt, z = g :: zt := by
      cases z with
      | nil => simp at hz4
      | cons g zt => exact ⟨g, zt, rfl⟩
    obtain ⟨hh, i, j, rfl⟩ : ∃ hh i j, zt = [hh, i, j] := by
      have h3 : zt.length = 3 := by simpa using hz4
      exact List.length_eq_three.mp h3
    have Ha : a.isDigit = true := hxd a (by simp)
    have Hb : b.isDigit = true := hxd b (by simp)
    have Hc : c.isDigit = true := hxd c (by simp)
    have Hd : d.isDigit = true := hyd d (by simp)
    have He : e.isDigit = true := hyd e (by simp)
    have Hf : f.isDigit = true := hyd f (by simp)
    have Hg : g.isDigit = true := hzd g (by simp)
    have Hh : hh.isDigit = true := hzd hh (by simp)
    have Hi : i.isDigit = true := hzd i (by simp)
    have Hj : j.isDigit = true := hzd j (by simp)
    have hs2 : s.data = [a, b, c, '-', d, e, f, '-', g, hh, i, j] := by
      rw [hs]; rfl
    unfold phoneTest
    rw [hs2]
    simp [Ha, Hb, Hc, Hd, He, Hf, Hg, Hh, Hi, Hj]

lemma emailTest_iff_EmailPattern (s : String) :
    emailTest s = true ↔ EmailPattern s := by
  constructor
  · intro h
    unfold emailTest at h
    simp only [List.any_eq_true, List.mem_range] at h
    obtain ⟨i, hi, j, hj, hcond⟩ := h
    simp only [Bool.and_eq_true, decide_eq_true_eq, beq_iff_eq,
      Bool.not_eq_true', List.all_eq_true] at hcond
    obtain ⟨⟨⟨⟨⟨⟨⟨h1i, hij⟩, hjn⟩, hat⟩, hdot⟩, hpre⟩, hmid⟩, hpost⟩ := hcond
    have hi1n : i - 1 < s.data.length := lt_of_le_of_lt (Nat.sub_le i 1) hi
    have hj1n : j + 1 < s.data.length := hjn
    have hgi : s.data[i] = '@' := by
      rw [← List.getD_eq_getElem s.data ' ' hi]; exact hat
    have hgj : s.data[j] = '.' := by
      rw [← List.getD_eq_getElem s.data ' ' hj]; exact hdot
    have hd1 : s.data.drop (i - 1) = s.data[i - 1] :: s.data.drop i := by
      have h2 := List.drop_eq_getElem_cons hi1n
      rwa [Nat.sub_add_cancel h1i] at h2
    have hd2 : s.data.drop i = '@' :: s.data.drop (i + 1) := by
      rw [List.drop_eq_getElem_cons hi, hgi]
    have hd3 : s.data.drop j = '.' :: s.data.drop (j + 1) := by
      rw [List.drop_eq_getElem_cons hj, hgj]
    have hd4 : s.data.drop (j + 1) = s.data[j + 1] :: s.data.drop (j + 2) :=
      List.drop_eq_getElem_cons hj1n
    have hsplit : s.data.drop (i + 1) =
        (s.data.drop (i + 1)).take (j - (i + 1)) ++ s.data.drop j := by
      conv_lhs => rw [← List.take_append_drop (j - (i + 1)) (s.data.drop (i + 1))]
      rw [List.drop_drop, Nat.add_sub_cancel' (Nat.le_of_lt hij)]
    have hfull : s.data = s.data.take (i - 1) ++
        (s.data[i - 1] :: '@' :: ((s.data.drop (i + 1)).take (j - (i + 1)) ++
          '.' :: (s.data[j + 1] :: s.data.drop (j + 2)))) := by
      conv_lhs => rw [← List.take_append_drop (i - 1) s.data, hd1, hd2, hsplit,
        hd3, hd4]
    refine ⟨s.data.take (i - 1), [s.data[i - 1]],
      (s.data.drop (i + 1)).take (j - (i + 1)), [s.data[j + 1]],
      s.data.drop (j + 2), ?_, ?_, ?_, ?_, ?_, ?_, ?_⟩
    · refine hfull.trans ?_
      simp only [List.append_assoc, List.singleton_append, List.cons_append,
        List.nil_append]
    · simp
    · intro ch hch
      simp at hch
      subst hch
      rwa [List.getD_eq_getElem s.data ' ' hi1n] at hpre
    · refine List.length_pos.mp ?_
      rw [List.length_take, List.length_drop]
      exact lt_min (by omega) (by omega)
    · exact hmid
    · simp
    · intro ch hch
      simp at hch
      subst hch
      rwa [List.getD_eq_getElem s.data ' ' hj1n] at hpost
  · rintro ⟨pre, a, b, c, post, hl, hane, hans, hbne, hbns, hcne, hcns⟩
    obtain ⟨a1, x, rfl⟩ : ∃ a1 x, a = a1 ++ [x] := by
      rcases List.eq_nil_or_concat a with h | ⟨L, bb, h⟩
      · exact absurd h hane
      · exact ⟨L, bb, by simpa [List.concat_eq_append] using h⟩
    obtain ⟨y, c1, rfl⟩ : ∃ y c1, c = y :: c1 := by
      cases c with
      | nil => exact absurd rfl hcne
      | cons y c1 => exact ⟨y, c1, rfl⟩
    have hb1 : 0 < b.length := List.length_pos.mpr hbne
    unfold emailTest
    simp only [List.any_eq_true, List.mem_range]
    refine ⟨(pre ++ (a1 ++ [x])).length, ?_,
      (pre ++ (a1 ++ [x]) ++ '@' :: b).length, ?_, ?_⟩
    · rw [hl]
      simp only [List.length_append, List.length_cons, List.length_nil]
      omega
    · rw [hl]
      simp only [List.length_append, List.length_cons, List.length_nil]
      omega
    · simp only [Bool.and_eq_true, decide_eq_true_eq, beq_iff_eq,
        Bool.not_eq_true', List.all_eq_true]
      refine ⟨⟨⟨⟨⟨⟨⟨?_, ?_⟩, ?_⟩, ?_⟩, ?_⟩, ?_⟩, ?_⟩, ?_⟩
      · simp only [List.length_append, List.length_cons, List.length_nil]
        omega
      · simp only [List.length_append, List.length_cons, List.length_nil]
        omega
      · rw [hl]
        simp only [List.length_append, List.length_cons, List.length_nil]
        omega
      · exact getD_of_drop_cons (drop_of_eq_append hl)
      · have hj' : s.data = ((pre ++ (a1 ++ [x])) ++ ('@' :: b)) ++
            ('.' :: (y :: (c1 ++ post))) := by rw [hl]; simp
        exact getD_of_drop_cons (drop_of_eq_append hj')
      · have hx' : s.data = (pre ++ a1) ++
            (x :: ('@' :: (b ++ '.' :: (y :: (c1 ++ post))))) := by rw [hl]; simp
        have h2 := getD_of_drop_cons (drop_of_eq_append hx')
        rw [show (pre ++ (a1 ++ [x])).length - 1 = (pre ++ a1).length from by
          simp only [List.length_append, List.length_cons, List.length_nil]
          omega]
        rw [h2]
        exact hans x (by simp)
      · have hss : s.data = ((pre ++ (a1 ++ [x])) ++ ['@']) ++
            (b ++ ('.' :: (y :: (c1 ++ post)))) := by rw [hl]; simp
        have hdD := drop_of_eq_append hss
        rw [show (pre ++ (a1 ++ [x])).length + 1 =
            ((pre ++ (a1 ++ [x])) ++ ['@']).length from by
          simp only [List.length_append, List.length_cons, List.length_nil]]
        rw [hdD]
        rw [show (pre ++ (a1 ++ [x]) ++ '@' :: b).length -
            ((pre ++ (a1 ++ [x])) ++ ['@']).length = b.length from by
          simp only [List.length_append, List.length_cons, List.length_nil]
          omega]
        rw [List.take_left]
        intro ch hch
        exact hbns ch hch
      · have hy' : s.data = (((pre ++ (a1 ++ [x])) ++ ('@' :: b)) ++ ['.']) ++
            (y :: (c1 ++ post)) := by rw [hl]; simp
        have h2 := getD_of_drop_cons (drop_of_eq_append hy')
        rw [show (pre ++ (a1 ++ [x]) ++ '@' :: b).length + 1 =
            (((pre ++ (a1 ++ [x])) ++ ('@' :: b)) ++ ['.']).length from by
          simp only [List.length_append, List.length_cons, List.length_nil]]
        rw [h2]
        exact hcns y (by simp)

lemma ageQ_eq_ageSpecDays (now b : Int) : ageQ now b = ageSpecDays now b := by
  unfold ageQ ageSpecDays
  rw [div_div]
  norm_num

lemma ageQ_lt_18_iff (now b : Int) :
    ageQ now b < 18 ↔ now - b < 568036800000 := by
  unfold ageQ
  rw [div_lt_iff₀ (by norm_num)]
  rw [show (18 : ℚ) * (1000 * 60 * 60 * 24 * (365.25 : ℚ)) =
    (568036800000 : ℚ) from by norm_num]
  constructor <;> intro h2 <;> exact_mod_cast h2

lemma ageFails_some (now b : Int) :
    ageFails now (some b) = decide (now - b < 568036800000) := by
  unfold ageFails
  by_cases h : now - b < 568036800000
  · simp [h, (ageQ_lt_18_iff now b).mpr h]
  · simp only [decide_eq_false h]
    exact decide_eq_false (fun h2 => h ((ageQ_lt_18_iff now b).mp h2))

lemma firstFailure_none_parts {env : Env} {req : Request}
    (h : firstFailure env req = none) :
    presenceFails req = false ∧
    ageFails env.now (env.parseDate (fieldVal req.dob)) = false ∧
    emailTest (fieldVal req.email) = true ∧
    phoneTest (fieldVal req.phone) = true := by
  unfold firstFailure at h
  split_ifs at h with h1 h2 h3 h4
  all_goals simp_all

lemma afterAge_response_cases (env : Env) (req : Request) (birth : Option Int) :
    (afterAge env req birth).response = Response.badRequest "Invalid email format" ∨
    (afterAge env req birth).response = Response.badRequest "Invalid phone format" ∨
    (afterAge env req birth).response = Response.serverError "Server error" ∨
    (afterAge env req birth).response = Response.ok "Submission successful" := by
  unfold afterAge persistAndMail
  cases he : emailTest (fieldVal req.email) <;>
  cases hph : phoneTest (fieldVal req.phone) <;>
  cases hs : env.saveOk <;>
  cases hm : env.mailOk <;>
    simp [he, hph, hs, hm]

lemma handleSubmit_persisted_cases (env : Env) (req : Request) :
    (handleSubmit env req).persisted = none ∨
    (handleSubmit env req).persisted =
      some (buildRecord req (env.parseDate (fieldVal req.dob))) := by
  unfold handleSubmit afterAge persistAndMail
  cases hp : presenceFails req <;>
  cases ha : ageFails env.now (env.parseDate (fieldVal req.dob)) <;>
  cases he : emailTest (fieldVal req.email) <;>
  cases hph : phoneTest (fieldVal req.phone) <;>
  cases hs : env.saveOk <;>
  cases hm : env.mailOk <;>
    simp [hp, ha, he, hph, hs, hm]

/-- Claim C1: the `POST /submit` validation rules run in the fixed order
presence/agreement, age, email pattern, phone pattern; a 400 response
carries exactly the first failing rule's reason, and on any 400 no
record is persisted and no mail is sent. -/
theorem submit_validation_first_failure (env : Env) (req : Request) :
    (∀ e, firstFailure env req = some e →
      handleSubmit env req = ⟨Response.badRequest e, none, none⟩) ∧
    (∀ e, (handleSubmit env req).response = Response.badRequest e →
      firstFailure env req = some e ∧
      (handleSubmit env req).persisted = none ∧
      (handleSubmit env req).mailSent = none) := by
  unfold handleSubmit firstFailure afterAge persistAndMail
  cases hp : presenceFails req <;>
  cases ha : ageFails env.now (env.parseDate (fieldVal req.dob)) <;>
  cases he : emailTest (fieldVal req.email) <;>
  cases hph : phoneTest (fieldVal req.phone) <;>
  cases hs : env.saveOk <;>
  cases hm : env.mailOk <;>
    simp [hp, ha, he, hph, hs, hm]

/-- Witness for C1: the all-fields-missing request gets the presence
reason, and nothing is stored or mailed. -/
theorem submit_validation_first_failure_witness :
    handleSubmit envEx reqMissing =
      ⟨Response.badRequest "Missing required fields", none, none⟩ :=
  (submit_validation_first_failure envEx reqMissing).1
    "Missing required fields" (by decide)

/-- Claim C2: a fully valid submission whose persistence write fails is
answered `500 {error: "Server error"}`, nothing is persisted and no
mail is sent. -/
theorem save_failure_is_500_no_mail (env : Env) (req : Request)
    (h : firstFailure env req = none) (hs : env.saveOk = false) :
    handleSubmit env req = ⟨Response.serverError "Server error", none, none⟩ := by
  obtain ⟨hp, ha, he, hph⟩ := firstFailure_none_parts h
  unfold handleSubmit afterAge persistAndMail
  simp [hp, ha, he, hph, hs]

/-- Witness for C2. -/
theorem save_failure_is_500_no_mail_witness :
    handleSubmit envSaveFail reqValid =
      ⟨Response.serverError "Server error", none, none⟩ :=
  save_failure_is_500_no_mail envSaveFail reqValid (by decide) (by decide)

/-- Claim C3: a fully valid submission whose persistence write succeeds
but whose mail send fails is still answered `500 {error: "Server
error"}`, though the record is already persisted. -/
theorem mail_failure_is_500_after_persist (env : Env) (req : Request)
    (h : firstFailure env req = none) (hs : env.saveOk = true)
    (hm : env.mailOk = false) :
    handleSubmit env req = ⟨Response.serverError "Server error",
      some (buildRecord req (env.parseDate (fieldVal req.dob))), none⟩ := by
  obtain ⟨hp, ha, he, hph⟩ := firstFailure_none_parts h
  unfold handleSubmit afterAge persistAndMail
  simp [hp, ha, he, hph, hs, hm]

/-- Witness for C3. -/
theorem mail_failure_is_500_after_persist_witness :
    handleSubmit envMailFail reqValid = ⟨Response.serverError "Server error",
      some (buildRecord reqValid (envMailFail.parseDate (fieldVal reqValid.dob))),
      none⟩ :=
  mail_failure_is_500_after_persist envMailFail reqValid (by decide) rfl rfl

/-- Claim C4: past the presence check, the age is the wall-clock time
minus the parsed date of birth, measured in days, divided by 365.25;
strictly under 18 years is rejected with the age-specific reason, and
exactly 18 or more passes the rule. -/
theorem age_rule_c4 (env : Env) (req : Request) (b : Int)
    (hp : presenceFails req = false)
    (hb : env.parseDate (fieldVal req.dob) = some b) :
    ageQ env.now b = ageSpecDays env.now b ∧
    (ageSpecDays env.now b < 18 →
      handleSubmit env req =
        ⟨Response.badRequest "Must be at least 18 years old", none, none⟩) ∧
    (18 ≤ ageSpecDays env.now b →
      (handleSubmit env req).response ≠
        Response.badRequest "Must be at least 18 years old") := by
  refine ⟨ageQ_eq_ageSpecDays env.now b, ?_, ?_⟩
  · intro hlt
    have ha : ageFails env.now (env.parseDate (fieldVal req.dob)) = true := by
      rw [hb]
      show decide (ageQ env.now b < 18) = true
      rw [ageQ_eq_ageSpecDays]
      exact decide_eq_true hlt
    unfold handleSubmit
    simp [hp, ha]
  · intro hge
    have ha : ageFails env.now (env.parseDate (fieldVal req.dob)) = false := by
      rw [hb]
      show decide (ageQ env.now b < 18) = false
      rw [ageQ_eq_ageSpecDays]
      exact decide_eq_false (not_lt.mpr hge)
    have hne1 : Response.badRequest "Invalid email format" ≠
        Response.badRequest "Must be at least 18 years old" := by decide
    have hne2 : Response.badRequest "Invalid phone format" ≠
        Response.badRequest "Must be at least 18 years old" := by decide
    have hsub : handleSubmit env req =
        afterAge env req (env.parseDate (fieldVal req.dob)) := by
      unfold handleSubmit
      simp [hp, ha]
    rw [hsub]
    rcases afterAge_response_cases env req (env.parseDate (fieldVal req.dob)) with
      h | h | h | h <;> rw [h] <;> simp

/-- Witness for C4: with the clock at the birth instant the computed age
is 0 and the request is rejected with the age reason. -/
theorem age_rule_c4_witness :
    handleSubmit envUnderage reqValid =
      ⟨Response.badRequest "Must be at least 18 years old", none, none⟩ :=
  (age_rule_c4 envUnderage reqValid 0 (by decide) rfl).2.1
    (by norm_num [ageSpecDays, envUnderage, envEx])

/-- Claim C5: past the presence and age checks, the request is answered
`400 {error: "Invalid email format"}` exactly when the email does not
contain non-whitespace run, `@`, non-whitespace run, `.`,
non-whitespace run; an email matching that pattern passes the rule. -/
theorem email_rule_c5 (env : Env) (req : Request)
    (hp : presenceFails req = false)
    (ha : ageFails env.now (env.parseDate (fieldVal req.dob)) = false) :
    (handleSubmit env req =
        ⟨Response.badRequest "Invalid email format", none, none⟩) ↔
      ¬ EmailPattern (fieldVal req.email) := by
  rw [← emailTest_iff_EmailPattern]
  have hne1 : ("Invalid phone format" : String) ≠ "Invalid email format" := by
    decide
  have hne2 : ("Server error" : String) ≠ "Invalid email format" := by decide
  unfold handleSubmit afterAge persistAndMail
  cases he : emailTest (fieldVal req.email) <;>
  cases hph : phoneTest (fieldVal req.phone) <;>
  cases hs : env.saveOk <;>
  cases hm : env.mailOk <;>
    simp [hp, ha, he, hph, hs, hm, hne1, hne2]

/-- Witness for C5: "nope" contains no `@`, so the otherwise-valid
request is rejected by the email rule. -/
theorem email_rule_c5_witness :
    (handleSubmit envEx reqBadEmail =
        ⟨Response.badRequest "Invalid email format", none, none⟩) ↔
      ¬ EmailPattern (fieldVal reqBadEmail.email) :=
  email_rule_c5 envEx reqBadEmail (by decide) rfl

/-- Claim C6: past the presence, age and email checks, the phone is
accepted exactly when the whole string is three digits, hyphen, three
digits, hyphen, four digits; any other value is answered
`400 {error: "Invalid phone format"}` — in particular the spec's
otherwise-valid example with phone "1234567890". -/
theorem phone_rule_c6 :
    (∀ (env : Env) (req : Request), presenceFails req = false →
      ageFails env.now (env.parseDate (fieldVal req.dob)) = false →
      emailTest (fieldVal req.email) = true →
      ((handleSubmit env req =
          ⟨Response.badRequest "Invalid phone format", none, none⟩) ↔
        ¬ PhonePattern (fieldVal req.phone))) ∧
    handleSubmit envExample reqBadPhone =
      ⟨Response.badRequest "Invalid phone format", none, none⟩ := by
  have main : ∀ (env : Env) (req : Request), presenceFails req = false →
      ageFails env.now (env.parseDate (fieldVal req.dob)) = false →
      emailTest (fieldVal req.email) = true →
      ((handleSubmit env req =
          ⟨Response.badRequest "Invalid phone format", none, none⟩) ↔
        ¬ PhonePattern (fieldVal req.phone)) := by
    intro env req hp ha he
    rw [← phoneTest_iff_PhonePattern]
    have hne1 : ("Server error" : String) ≠ "Invalid phone format" := by decide
    unfold handleSubmit afterAge persistAndMail
    cases hph : phoneTest (fieldVal req.phone) <;>
    cases hs : env.saveOk <;>
    cases hm : env.mailOk <;>
      simp [hp, ha, he, hph, hs, hm, hne1]
  refine ⟨main, ?_⟩
  have ha : ageFails envExample.now
      (envExample.parseDate (fieldVal reqBadPhone.dob)) = false := by
    show ageFails 1791676800000 (some 946684800000) = false
    rw [ageFails_some]
    decide
  rw [main envExample reqBadPhone (by decide) ha (by decide),
    ← phoneTest_iff_PhonePattern]
  decide

/-- Claim C7: a fully valid submission with no photo and no previous
school, when save and send both succeed, stores a record with `photo`
absent and `agreed := true`, mails a summary with "N/A" for previous
school and "None" as the photo indicator with no attachments, and is
answered `200 {message: "Submission successful"}`. -/
theorem success_no_photo_c7 (env : Env) (req : Request)
    (h : firstFailure env req = none) (hf : req.file = none)
    (hps : req.previousSchool = none) (hs : env.saveOk = true)
    (hm : env.mailOk = true) :
    handleSubmit env req = ⟨Response.ok "Submission successful",
      some { fullName := fieldVal req.fullName,
             dob := env.parseDate (fieldVal req.dob),
             gender := fieldVal req.gender, email := fieldVal req.email,
             phone := fieldVal req.phone, address := fieldVal req.address,
             previousSchool := none, result := fieldVal req.result,
             classApplying := fieldVal req.classApplying, photo := none,
             agreed := true },
      some { fromAddr := env.gmailUser, toAddr := env.adminEmail,
             subject := "New Student Admission Submission",
             text := mailText (fieldVal req.fullName) (fieldVal req.dob)
               (fieldVal req.gender) (fieldVal req.email)
               (fieldVal req.phone) (fieldVal req.address) "N/A"
               (fieldVal req.result) (fieldVal req.classApplying) "None",
             attachments := [] }⟩ := by
  obtain ⟨hp, ha, he, hph⟩ := firstFailure_none_parts h
  unfold handleSubmit afterAge persistAndMail buildRecord buildMail
  simp [hp, ha, he, hph, hs, hm, hf, hps, falsy]

/-- Witness for C7: the spec's example input, against an environment
where the write and the send succeed. -/
theorem success_no_photo_c7_witness :
    handleSubmit envEx reqValid = ⟨Response.ok "Submission successful",
      some { fullName := "A B", dob := none, gender := "F",
             email := "a@b.com", phone := "123-456-7890", address := "X",
             previousSchool := none, result := "Pass", classApplying := "10",
             photo := none, agreed := true },
      some { fromAddr := "admissions@school.example",
             toAddr := "admin@example.com",
             subject := "New Student Admission Submission",
             text := mailText "A B" "2000-01-01" "F" "a@b.com"
               "123-456-7890" "X" "N/A" "Pass" "10" "None",
             attachments := [] }⟩ :=
  success_no_photo_c7 envEx reqValid (by decide) rfl rfl rfl rfl

/-- Claim C8: the multer filter rejects any upload whose MIME type does
not begin with "image/" with the error "Only images are allowed",
before the handler body runs, so nothing is persisted and no mail is
sent; an "image/..." MIME type is accepted and the handler runs. -/
theorem upload_filter_c8 (env : Env) (m path : String) (req : Request) :
    ("image/".data.isPrefixOf m.data = false →
      fileFilter m = FilterResult.reject "Only images are allowed" ∧
      processRequest env (some m) path req =
        ⟨Response.uploadError "Only images are allowed", none, none⟩) ∧
    ("image/".data.isPrefixOf m.data = true →
      fileFilter m = FilterResult.accept ∧
      processRequest env (some m) path req =
        handleSubmit env { req with file := some path }) := by
  unfold processRequest fileFilter
  cases hm : "image/".data.isPrefixOf m.data <;> simp [hm]

/-- Witness for C8: a "text/plain" upload is rejected with no record and
no mail. -/
theorem upload_filter_c8_witness :
    fileFilter "text/plain" = FilterResult.reject "Only images are allowed" ∧
    processRequest envEx (some "text/plain") "uploads/x.txt" reqValid =
      ⟨Response.uploadError "Only images are allowed", none, none⟩ :=
  (upload_filter_c8 envEx "text/plain" "uploads/x.txt" reqValid).1 (by decide)

/-- Claim C9: a present but unparseable date of birth gives an invalid
date; the age comparison against `NaN` (modelled as `none`) is false,
so the age rule does not reject and validation proceeds to the email
and phone checks. -/
theorem invalid_dob_passes_age_c9 (env : Env) (req : Request) (d : String)
    (hp : presenceFails req = false) (hd : req.dob = some d) (_hne : d ≠ "")
    (hparse : env.parseDate d = none) :
    ageFails env.now (env.parseDate d) = false ∧
    (handleSubmit env req).response ≠
      Response.badRequest "Must be at least 18 years old" ∧
    handleSubmit env req = afterAge env req none := by
  have hfv : fieldVal req.dob = d := by rw [hd]; rfl
  have ha : ageFails env.now (env.parseDate (fieldVal req.dob)) = false := by
    rw [hfv, hparse]
    rfl
  have hsub : handleSubmit env req = afterAge env req none := by
    unfold handleSubmit
    rw [hfv, hparse] at ha ⊢
    simp [hp, ha]
  refine ⟨by rw [hparse]; rfl, ?_, hsub⟩
  rw [hsub]
  rcases afterAge_response_cases env req none with h | h | h | h <;>
    rw [h] <;> simp

/-- Witness for C9: the otherwise-valid request with dob "not-a-date". -/
theorem invalid_dob_passes_age_c9_witness :
    ageFails envEx.now (envEx.parseDate "not-a-date") = false ∧
    (handleSubmit envEx reqBadDob).response ≠
      Response.badRequest "Must be at least 18 years old" ∧
    handleSubmit envEx reqBadDob = afterAge envEx reqBadDob none :=
  invalid_dob_passes_age_c9 envEx reqBadDob "not-a-date" (by decide) rfl
    (by decide) rfl

/-- Claim C10: the agreement flag counts as affirmed only for the exact
string "on" — any other submitted value is rejected as missing required
fields — and every record that is persisted stores `agreed` as the
literal boolean `true`. -/
theorem agreed_flag_c10 :
    (∀ (env : Env) (req : Request), req.agreed ≠ some "on" →
      handleSubmit env req =
        ⟨Response.badRequest "Missing required fields", none, none⟩) ∧
    (∀ (env : Env) (req : Request) (r : StudentRecord),
      (handleSubmit env req).persisted = some r → r.agreed = true) := by
  constructor
  · intro env req h
    have hp : presenceFails req = true := by
      unfold presenceFails
      have hb : (req.agreed == some "on") = false := by
        rwa [beq_eq_false_iff_ne]
      simp [hb]
    unfold handleSubmit
    simp [hp]
  · intro env req r h
    rcases handleSubmit_persisted_cases env req with hc | hc
    · rw [hc] at h
      cases h
    · rw [hc] at h
      have hr : buildRecord req (env.parseDate (fieldVal req.dob)) = r :=
        Option.some.inj h
      rw [← hr]
      rfl

/-- Witness for C10: `agreed = "yes"` is rejected as missing required
fields, and the record persisted for the valid request stores
`agreed = true`. -/
theorem agreed_flag_c10_witness :
    handleSubmit envEx reqBadAgreed =
      ⟨Response.badRequest "Missing required fields", none, none⟩ ∧
    (buildRecord reqValid none).agreed = true :=
  ⟨(agreed_flag_c10).1 envEx reqBadAgreed (by decide),
    (agreed_flag_c10).2 envEx reqValid (buildRecord reqValid none)
      (by decide)⟩
